import Mathlib

/-!
Shallow embedding of the AFT topology discovery engine
(`aft/tools/topology_builder.py`).

Pure data and the state transitions of the `TopologyBuilder` class are
translated directly from the source.  External effects enter as explicit
oracle parameters: the fate of each spawned probe worker process is an
oracle `String → WorkerOutcome` (what the collection loop observes when
it calls `is_alive()` after the wait budget and the one second grace
join), network reachability is an oracle `NetConfig → Bool`
(`_check_connectivity` result `0` mapped to `true`), and `uuid.uuid1()`
is a fresh-string parameter.  Calls to `logger.warning` and to the
cutter relays (`connect` / `disconnect`) are recorded as explicit event
lists so that temporal claims about them can be stated.
-/

/-- Observed state of one probe worker process at the point where the
batch loop checks `p.is_alive()` (after `sleep(wait_duration)` and
`join(1)`): the worker terminated on its own, died raising an error,
or is still running. -/
inductive WorkerOutcome where
  | finished
  | errored
  | running
deriving DecidableEq, Repr

/-- What `p.is_alive()` returns for each outcome: only a worker that is
still running is alive; both normal termination and an error exit leave
a dead process. -/
def is_alive : WorkerOutcome → Bool
  | .running => true
  | .finished => false
  | .errored => false

/-- Python `s.startswith(pre)`, computed on the character lists (the
library `String.startsWith` is extensionally the same but does not
reduce inside the kernel). -/
def starts_with (s pre : String) : Bool :=
  pre.data.isPrefixOf s.data

/-- `_get_active_PEM_device_files`: one PEM playback process is spawned
per candidate that starts with `ttyUSB` (all others are ignored); after
`sleep(wait_duration)` the loop joins each process; a process still
alive is terminated (second component of the result), while a process
that already exited has its device file appended to the active PEM
port list (first component, in candidate order), which is put on the
result queue. -/
def get_active_PEM_device_files (wait_duration : Nat)
    (outcome : String → WorkerOutcome) (device_files : List String) :
    List String × List String :=
  let usb_files := device_files.filter (fun usb => starts_with usb "ttyUSB")
  let _ := wait_duration
  (usb_files.filter (fun usb => !is_alive (outcome usb)),
   usb_files.filter (fun usb => is_alive (outcome usb)))

/-- `_get_active_serial_device_files`: identical collection logic to the
PEM variant (one write/read `checker` process per `ttyUSB*` candidate;
after the wait, alive processes are terminated, dead ones are recorded
as active serial ports and the list is put on the result queue). -/
def get_active_serial_device_files (wait_duration : Nat)
    (outcome : String → WorkerOutcome) (device_files : List String) :
    List String × List String :=
  let usb_files := device_files.filter (fun usb => starts_with usb "ttyUSB")
  let _ := wait_duration
  (usb_files.filter (fun usb => !is_alive (outcome usb)),
   usb_files.filter (fun usb => is_alive (outcome usb)))

/-- The device dictionary built by `_get_device_configuration`; Python
uses a plain dict whose keys are set conditionally, modelled here with
one `Option` field per key the source can set. -/
structure DeviceRecord where
  cutter : Option String := none
  channel : Option String := none
  id : Option String := none
  model : Option String := none
  network_subnet : Option String := none
  edison_usb_port : Option String := none
  serial_port : Option String := none
  serial_bauds : Option Nat := none
  pem_port : Option String := none
  pem_interface : Option String := none
deriving DecidableEq, Repr

/-- A network configuration dictionary from `_get_network_configs`:
either a PC-like lease (`{"type": "PC", "mac": .., "ip": ..}`) or an
Edison USB-network entry
(`{"type": "edison", "usb_path": .., "ip": .., "subnet": ..}`). -/
inductive NetConfig where
  | PC (mac ip : String)
  | edison (usb_path ip subnet : String)
deriving DecidableEq, Repr

/-- One entry of the `pc_devices` list of `topology_builder.json`:
a model name plus the MAC prefixes identifying it. -/
structure PcDevice where
  model : String
  mac_prefixes : List String
deriving DecidableEq, Repr

/-- The parts of the `topology_builder.json` configuration the
embedded functions consult. -/
structure TBConfig where
  pc_devices : List PcDevice
  edison_model : String
deriving Repr

/-- A `logger.warning` event emitted by `_set_device_serial_port` or
`_set_device_pem_port`: the "Too many usb devices disappeared" message
for the serial or PEM pool, or the "Device dictionary: " dump that
follows it. -/
inductive LogEvent where
  | tooManySerial
  | tooManyPem
  | deviceDict (device : DeviceRecord)
deriving DecidableEq, Repr

/-- The dictionary returned by a cutter's `get_cutter_config()`.
Modelled from the spec: the cutter drivers (`ClewareCutter`,
`Usbrelay`) are external collaborators whose config is
`{type, cutter, channel?}` (`getConfig() -> {cutter, channel, ...}`). -/
structure CutterConf where
  ctype : String
  cutter : String
  channel : Option String := none
deriving DecidableEq, Repr

/-- A command issued to a cutter relay: `connect()` energizes the
channel, `disconnect()` cuts its power. -/
inductive CutterEvent where
  | connect (c : CutterConf)
  | disconnect (c : CutterConf)
deriving DecidableEq, Repr

/-- `_set_device_cutter_config`: copy every cutter-config key except
`"type"` into the device dictionary. -/
def set_device_cutter_config (device : DeviceRecord) (conf : CutterConf) :
    DeviceRecord :=
  { device with cutter := some conf.cutter, channel := conf.channel }

/-- `_set_pc_device_ip_and_type` inner lookup: first `pc_devices` entry
one of whose `mac_prefixes` is a (case-insensitive) prefix of the MAC. -/
def find_pc_model (pc_devices : List PcDevice) (mac : String) : Option String :=
  pc_devices.findSome? (fun d =>
    if d.mac_prefixes.any (fun pfx => starts_with mac.toLower pfx.toLower)
    then some d.model else none)

/-- `_set_pc_device_ip_and_type`: record the MAC as the device id and,
if a MAC prefix matches, the model. -/
def set_pc_device_ip_and_type (cfg : TBConfig) (device : DeviceRecord)
    (mac : String) : DeviceRecord :=
  let device := { device with id := some mac }
  match find_pc_model cfg.pc_devices mac with
  | some m => { device with model := some m }
  | none => device

/-- `_set_edison_device_ip_and_type`: record subnet, usb tree path, a
fresh uuid as id, and the configured Edison model. -/
def set_edison_device_ip_and_type (cfg : TBConfig) (uuid : String)
    (device : DeviceRecord) (usb_path subnet : String) : DeviceRecord :=
  { device with
    network_subnet := some subnet,
    edison_usb_port := some usb_path,
    id := some uuid,
    model := some cfg.edison_model }

/-- The attribution dispatch of `_set_device_network_and_type` on
`net_config["type"]`. -/
def attrib_net (cfg : TBConfig) (uuid : String) (device : DeviceRecord) :
    NetConfig → DeviceRecord
  | .PC mac _ip => set_pc_device_ip_and_type cfg device mac
  | .edison usb_path _ip subnet =>
      set_edison_device_ip_and_type cfg uuid device usb_path subnet

/-- `_set_device_network_and_type`: walk `self._network_configs` in
order; a config that still responds is kept; the first one that no
longer responds is attributed to the device, removed from the list, and
the method returns immediately. -/
def set_device_network_and_type (cfg : TBConfig) (uuid : String)
    (reachable : NetConfig → Bool) (device : DeviceRecord) :
    List NetConfig → DeviceRecord × List NetConfig
  | [] => (device, [])
  | c :: rest =>
    if reachable c then
      let r := set_device_network_and_type cfg uuid reachable device rest
      (r.1, c :: r.2)
    else
      (attrib_net cfg uuid device c, rest)

/-- `list(set(pool).difference(active))`: the ports of the pool that
are no longer active, without duplicates. -/
def dead_ports (pool active : List String) : List String :=
  pool.dedup.filter (fun x => !decide (x ∈ active))

/-- `_set_device_serial_port`: diff the serial pool against the probe's
active list; more than one dead port emits the two `logger.warning`
events and changes nothing, zero dead ports changes nothing, exactly
one dead port is attributed (`serial_port`, `serial_bauds`) and removed
from the pool.  Returns (device, pool, warnings). -/
def set_device_serial_port (device : DeviceRecord)
    (serial_pool active_serial_ports : List String) :
    DeviceRecord × List String × List LogEvent :=
  let dead := dead_ports serial_pool active_serial_ports
  if dead.length > 1 then
    (device, serial_pool, [LogEvent.tooManySerial, LogEvent.deviceDict device])
  else if dead.length = 0 then
    (device, serial_pool, [])
  else
    ({ device with
        serial_port := some ("/dev/" ++ dead.headD ""),
        serial_bauds := some 115200 },
     serial_pool.erase (dead.headD ""), [])

/-- `_set_device_pem_port`: same diff as the serial variant; exactly one
dead port is attributed (`pem_port`, `pem_interface`) and removed. -/
def set_device_pem_port (device : DeviceRecord)
    (pem_pool active_pem_ports : List String) :
    DeviceRecord × List String × List LogEvent :=
  let dead := dead_ports pem_pool active_pem_ports
  if dead.length > 1 then
    (device, pem_pool, [LogEvent.tooManyPem, LogEvent.deviceDict device])
  else if dead.length = 0 then
    (device, pem_pool, [])
  else
    ({ device with
        pem_port := some ("/dev/" ++ dead.headD ""),
        pem_interface := some "serialconnection" },
     pem_pool.erase (dead.headD ""), [])

/-- The external observations one elimination round depends on: worker
outcomes of the two probe batches, the reachability oracle of this
round, and the uuid `uuid.uuid1()` would mint. -/
structure RoundEnv where
  pemOutcome : String → WorkerOutcome
  serialOutcome : String → WorkerOutcome
  reachable : NetConfig → Bool
  uuid : String

/-- The mutable state of a `TopologyBuilder` run: the two shrinking
port pools, the network-config pool, the accumulated device records,
and the recorded warning and cutter events. -/
structure RunState where
  pem_ports : List String
  serial_ports : List String
  network_configs : List NetConfig
  devices : List DeviceRecord
  warnings : List LogEvent
  events : List CutterEvent
deriving Repr

/-- `_get_device_configuration`: disconnect the cutter, probe the
current pools (wait budget 30), then populate a fresh device dict via
the cutter-config, network, serial and PEM steps, threading the pool
mutations through the state.  Returns the device dict and the updated
state (the caller appends the dict to `self._devices`). -/
def get_device_configuration (cfg : TBConfig) (env : RoundEnv)
    (cutterConf : CutterConf) (st : RunState) : DeviceRecord × RunState :=
  let events := st.events ++ [CutterEvent.disconnect cutterConf]
  let active_pem := (get_active_PEM_device_files 30 env.pemOutcome st.pem_ports).1
  let active_serial :=
    (get_active_serial_device_files 30 env.serialOutcome st.serial_ports).1
  let device : DeviceRecord := {}
  let device := set_device_cutter_config device cutterConf
  let net := set_device_network_and_type cfg env.uuid env.reachable device
    st.network_configs
  let ser := set_device_serial_port net.1 st.serial_ports active_serial
  let pem := set_device_pem_port ser.1 st.pem_ports active_pem
  (pem.1,
   { st with
      events := events,
      network_configs := net.2,
      serial_ports := ser.2.1,
      pem_ports := pem.2.1,
      warnings := st.warnings ++ ser.2.2 ++ pem.2.2 })

/-- One iteration of the `for cutter in cutters` loop of
`build_topology`: run `_get_device_configuration` and append the device
dict to `self._devices`. -/
def run_round (cfg : TBConfig) (env : RoundEnv) (cutterConf : CutterConf)
    (st : RunState) : RunState :=
  let r := get_device_configuration cfg env cutterConf st
  { r.2 with devices := r.2.devices ++ [r.1] }

/-- The whole `for cutter in cutters` loop, one round per cutter in
input order. -/
def run_rounds (cfg : TBConfig) :
    List (CutterConf × RoundEnv) → RunState → RunState
  | [], st => st
  | (c, env) :: rest, st => run_rounds cfg rest (run_round cfg env c st)

/-- `_power_cycle_cutters` as a cutter-event trace: disconnect every
cutter, then (after the settle sleep and the dmesg timestamp snapshot)
connect every cutter. -/
def power_cycle_cutters (cutters : List CutterConf) : List CutterEvent :=
  cutters.map CutterEvent.disconnect ++ cutters.map CutterEvent.connect

/-- The state of `build_topology` right after the full-power baseline:
PEM pool = active PEM probe result over the `/dev` listing (budget 80),
serial candidates = `list(set(device_files).difference(pem_ports))`,
serial pool = active serial probe result over those (budget 20),
network configs from `_get_network_configs`, no devices yet, and the
power-cycle trace recorded. -/
def initial_run_state (device_files : List String)
    (basePem baseSerial : String → WorkerOutcome)
    (network_configs : List NetConfig) (cutters : List CutterConf) :
    RunState :=
  let pem_ports := (get_active_PEM_device_files 80 basePem device_files).1
  let potential_serial_ports :=
    device_files.dedup.filter (fun d => !decide (d ∈ pem_ports))
  let serial_ports :=
    (get_active_serial_device_files 20 baseSerial potential_serial_ports).1
  { pem_ports := pem_ports,
    serial_ports := serial_ports,
    network_configs := network_configs,
    devices := [],
    warnings := [],
    events := power_cycle_cutters cutters }

/-- The discovery core of `build_topology`: power cycle, snapshot the
baseline pools under full power, then drive one elimination round per
cutter in input order. -/
def build_topology (cfg : TBConfig) (device_files : List String)
    (basePem baseSerial : String → WorkerOutcome)
    (network_configs : List NetConfig)
    (rounds : List (CutterConf × RoundEnv)) : RunState :=
  run_rounds cfg rounds
    (initial_run_state device_files basePem baseSerial network_configs
      (rounds.map Prod.fst))

/-- One section of the assembled topology configuration: its
`MODEL_<n>` name and the device record whose key/value pairs
`config.set` copies under it. -/
structure ConfigSection where
  name : String
  device : DeviceRecord
deriving DecidableEq, Repr

/-- Python dict lookup for the `device_ids` counter dict. -/
def dict_lookup : List (String × Nat) → String → Option Nat
  | [], _ => none
  | p :: rest, k => if p.1 == k then some p.2 else dict_lookup rest k

/-- Python dict assignment for the `device_ids` counter dict. -/
def dict_set : List (String × Nat) → String → Nat → List (String × Nat)
  | [], k, v => [(k, v)]
  | p :: rest, k, v =>
    if p.1 == k then (k, v) :: rest else p :: dict_set rest k v

/-- Python `s.upper()`, character-wise on the character list (the
library `String.toUpper` is extensionally the same but does not reduce
inside the kernel). -/
def to_upper (s : String) : String :=
  String.mk (s.data.map Char.toUpper)

/-- The `for device in self._devices` loop of `_create_configuration`:
skip records without a model; otherwise initialize the model's counter
to 1 if absent, use its value as this record's number, bump it, and
emit the section `MODEL.upper() + "_" + str(n)`. -/
def create_configuration_loop (device_ids : List (String × Nat)) :
    List DeviceRecord → List ConfigSection
  | [] => []
  | device :: rest =>
    match device.model with
    | none => create_configuration_loop device_ids rest
    | some m =>
      let ids0 :=
        match dict_lookup device_ids m with
        | none => dict_set device_ids m 1
        | some _ => device_ids
      let dev_id := (dict_lookup ids0 m).getD 0
      let ids1 := dict_set ids0 m (dev_id + 1)
      { name := to_upper m ++ "_" ++ toString dev_id, device := device } ::
        create_configuration_loop ids1 rest

/-- `_create_configuration`: assemble the ordered section list from the
accumulated device records, starting with an empty `device_ids` dict. -/
def create_configuration (devices : List DeviceRecord) : List ConfigSection :=
  create_configuration_loop [] devices

/-- How many of the given records carry the given model. -/
def count_model (devices : List DeviceRecord) (m : String) : Nat :=
  (devices.filter (fun d => decide (d.model = some m))).length

/-- The assembler as the spec words it, for comparison with
`create_configuration`: drop records without a model, keep input
order, and name each kept record with its uppercased model, an
underscore, and the 1-based count of same-model records seen so far
(`prev` holds the records already processed). -/
def assemble_spec (prev : List DeviceRecord) :
    List DeviceRecord → List ConfigSection
  | [] => []
  | d :: rest =>
    match d.model with
    | none => assemble_spec (prev ++ [d]) rest
    | some m =>
      { name := to_upper m ++ "_" ++ toString (count_model prev m + 1),
        device := d } :: assemble_spec (prev ++ [d]) rest

/-- Python `s.split(sep)` for a one-character separator, on character
lists: every occurrence of the separator cuts, empty pieces are kept. -/
def split_on_char (sep : Char) : List Char → List (List Char)
  | [] => [[]]
  | c :: rest =>
    let r := split_on_char sep rest
    if c = sep then [] :: r
    else (c :: r.headD []) :: r.tail

/-- Substring occurrence on character lists: the pattern is a prefix of
some suffix. -/
def contains_sub (pat : List Char) : List Char → Bool
  | [] => pat.isPrefixOf []
  | c :: rest => pat.isPrefixOf (c :: rest) || contains_sub pat rest

/-- `"Edison" in line` (the Python substring test). -/
def str_contains (line pat : String) : Bool :=
  contains_sub pat.data line.data

/-- Python `int(s)` on a digit string (with optional leading minus
sign), the only shapes a dmesg timestamp field takes: the accumulated
decimal value, or `none` where Python would raise `ValueError`. -/
def digits_to_nat (acc : Nat) : List Char → Option Nat
  | [] => some acc
  | c :: rest =>
    if c.isDigit then digits_to_nat (acc * 10 + (c.toNat - 48)) rest
    else none

/-- `int(s)` including the sign case, `none` where Python raises. -/
def parse_int : List Char → Option Int
  | [] => none
  | '-' :: rest =>
    if rest.isEmpty then none
    else (digits_to_nat 0 rest).map (fun n => -(n : Int))
  | s => (digits_to_nat 0 s).map (fun n => (n : Int))

/-- `_dmesg_line_timestamp`: `-1` for an empty line, otherwise
`int(line.split(".")[0].split("[")[1])` — the integer seconds of the
leading bracketed timestamp.  (A malformed line raises in Python; the
total model returns 0 there, which no claim exercises.) -/
def dmesg_line_timestamp (line : String) : Int :=
  if line.length = 0 then -1
  else
    (parse_int ((split_on_char '['
      ((split_on_char '.' line.data).headD [])).getD 1 [])).getD 0

/-- The dmesg scan of `_get_edison_configs`: keep the lines containing
"Edison" whose timestamp is strictly greater than the timestamp
captured before the power cycle. -/
def get_edison_lines (dmesg_lines : List String) (timestamp : Int) :
    List String :=
  dmesg_lines.filter (fun line =>
    str_contains line "Edison" && decide (dmesg_line_timestamp line > timestamp))

/-! ## Helper lemmas shared across the claim theorems -/

/-- Cancel the `"/dev/"` prefix the attribution steps prepend. -/
theorem dev_prefix_inj {a b : String} (h : "/dev/" ++ a = "/dev/" ++ b) :
    a = b := by
  have h2 := congrArg String.data h
  simp only [String.data_append] at h2
  exact String.ext (List.append_cancel_left h2)

/-- A member of the dead-port diff is a member of the pool. -/
theorem dead_ports_subset {pool active : List String} {e : String}
    (h : e ∈ dead_ports pool active) : e ∈ pool := by
  simp only [dead_ports, List.mem_filter, List.mem_dedup] at h
  exact h.1

/-- Case split on `_set_device_serial_port`: either exactly one port
died and is attributed and erased, or the device and pool pass through
unchanged. -/
theorem set_device_serial_port_cases (device : DeviceRecord)
    (pool active : List String) :
    (∃ e, dead_ports pool active = [e] ∧
      set_device_serial_port device pool active =
        ({ device with
            serial_port := some ("/dev/" ++ e),
            serial_bauds := some 115200 }, pool.erase e, [])) ∨
    ((set_device_serial_port device pool active).1 = device ∧
     (set_device_serial_port device pool active).2.1 = pool) := by
  by_cases h1 : (dead_ports pool active).length > 1
  · right; simp [set_device_serial_port, h1]
  · by_cases h0 : (dead_ports pool active).length = 0
    · right; simp [set_device_serial_port, h1, h0]
    · left
      have hlen : (dead_ports pool active).length = 1 := by omega
      obtain ⟨e, he⟩ := List.length_eq_one.mp hlen
      exact ⟨e, he, by simp [set_device_serial_port, he]⟩

/-- Case split on `_set_device_pem_port`, mirror of the serial one. -/
theorem set_device_pem_port_cases (device : DeviceRecord)
    (pool active : List String) :
    (∃ e, dead_ports pool active = [e] ∧
      set_device_pem_port device pool active =
        ({ device with
            pem_port := some ("/dev/" ++ e),
            pem_interface := some "serialconnection" }, pool.erase e, [])) ∨
    ((set_device_pem_port device pool active).1 = device ∧
     (set_device_pem_port device pool active).2.1 = pool) := by
  by_cases h1 : (dead_ports pool active).length > 1
  · right; simp [set_device_pem_port, h1]
  · by_cases h0 : (dead_ports pool active).length = 0
    · right; simp [set_device_pem_port, h1, h0]
    · left
      have hlen : (dead_ports pool active).length = 1 := by omega
      obtain ⟨e, he⟩ := List.length_eq_one.mp hlen
      exact ⟨e, he, by simp [set_device_pem_port, he]⟩

/-- The PEM step never touches the serial fields of the record. -/
theorem set_device_pem_port_keeps_serial (device : DeviceRecord)
    (pool active : List String) :
    (set_device_pem_port device pool active).1.serial_port =
      device.serial_port := by
  simp only [set_device_pem_port]
  split
  · rfl
  · split <;> rfl

/-- The serial step never touches the PEM fields of the record. -/
theorem set_device_serial_port_keeps_pem (device : DeviceRecord)
    (pool active : List String) :
    (set_device_serial_port device pool active).1.pem_port =
      device.pem_port := by
  simp only [set_device_serial_port]
  split
  · rfl
  · split <;> rfl

/-- The network step never touches the serial or PEM fields. -/
theorem set_device_network_and_type_keeps_ports (cfg : TBConfig)
    (uuid : String) (reachable : NetConfig → Bool) (device : DeviceRecord)
    (configs : List NetConfig) :
    (set_device_network_and_type cfg uuid reachable device configs).1.serial_port
      = device.serial_port ∧
    (set_device_network_and_type cfg uuid reachable device configs).1.pem_port
      = device.pem_port := by
  induction configs with
  | nil => exact ⟨rfl, rfl⟩
  | cons c rest ih =>
    by_cases h : reachable c
    · simpa [set_device_network_and_type, h] using ih
    · simp only [set_device_network_and_type, h, Bool.false_eq_true, if_false]
      cases c with
      | PC mac ip =>
        simp only [attrib_net, set_pc_device_ip_and_type]
        cases find_pc_model cfg.pc_devices mac <;> exact ⟨rfl, rfl⟩
      | edison usb_path ip subnet => exact ⟨rfl, rfl⟩

/-! ## Claim theorems -/

/-- C1 (Probe polarity): in any probe batch — PEM or serial — over a
candidate set of device files with wait budget `T`, a worker process
that terminated on its own before the batch deadline check is
classified positive (its device file appears in the returned active
set), while a worker still running at the deadline check is classified
negative: it does not appear in the active set and is forcibly
terminated (appears in the terminated set). -/
theorem probe_polarity (T : Nat) (outP outS : String → WorkerOutcome)
    (files : List String) (f : String)
    (hf : f ∈ files) (husb : starts_with f "ttyUSB" = true) :
    (outP f = WorkerOutcome.finished →
      f ∈ (get_active_PEM_device_files T outP files).1) ∧
    (outP f = WorkerOutcome.running →
      f ∉ (get_active_PEM_device_files T outP files).1 ∧
      f ∈ (get_active_PEM_device_files T outP files).2) ∧
    (outS f = WorkerOutcome.finished →
      f ∈ (get_active_serial_device_files T outS files).1) ∧
    (outS f = WorkerOutcome.running →
      f ∉ (get_active_serial_device_files T outS files).1 ∧
      f ∈ (get_active_serial_device_files T outS files).2) := by
  refine ⟨fun h => ?_, fun h => ⟨?_, ?_⟩, fun h => ?_, fun h => ⟨?_, ?_⟩⟩ <;>
    simp [get_active_PEM_device_files, get_active_serial_device_files,
      List.mem_filter, hf, husb, is_alive, h]

/-- Witness for `probe_polarity`: a two-worker batch in which
`ttyUSB0` finishes early and `ttyUSB1` stays blocked. -/
theorem probe_polarity_witness :
    "ttyUSB0" ∈ (get_active_PEM_device_files 80
      (fun u => if u = "ttyUSB0" then WorkerOutcome.finished
                else WorkerOutcome.running) ["ttyUSB0", "ttyUSB1"]).1 ∧
    "ttyUSB1" ∉ (get_active_PEM_device_files 80
      (fun u => if u = "ttyUSB0" then WorkerOutcome.finished
                else WorkerOutcome.running) ["ttyUSB0", "ttyUSB1"]).1 ∧
    "ttyUSB1" ∈ (get_active_PEM_device_files 80
      (fun u => if u = "ttyUSB0" then WorkerOutcome.finished
                else WorkerOutcome.running) ["ttyUSB0", "ttyUSB1"]).2 := by
  have h0 := probe_polarity 80
    (fun u => if u = "ttyUSB0" then WorkerOutcome.finished
              else WorkerOutcome.running)
    (fun _ => WorkerOutcome.finished) ["ttyUSB0", "ttyUSB1"] "ttyUSB0"
    (by decide) (by decide)
  have h1 := probe_polarity 80
    (fun u => if u = "ttyUSB0" then WorkerOutcome.finished
              else WorkerOutcome.running)
    (fun _ => WorkerOutcome.finished) ["ttyUSB0", "ttyUSB1"] "ttyUSB1"
    (by decide) (by decide)
  exact ⟨h0.1 (by decide), (h1.2.1 (by decide)).1, (h1.2.1 (by decide)).2⟩

/-- C4 counterexample: a worker that errors out exits before the
deadline check, so the collection loop sees a dead process and appends
its device file to the ACTIVE set — for both probe kinds — refuting
the claim that an erroring worker's file is excluded from the returned
active set. -/
theorem probe_error_counterexample :
    "ttyUSB0" ∈ (get_active_PEM_device_files 30
      (fun _ => WorkerOutcome.errored) ["ttyUSB0"]).1 ∧
    "ttyUSB0" ∈ (get_active_serial_device_files 30
      (fun _ => WorkerOutcome.errored) ["ttyUSB0"]).1 := by decide

/-- C4 amended: a worker whose process errors out (and therefore exits
before the deadline check, e.g. its device file vanished mid-probe) is
classified like a POSITIVE result — its device file appears in the
returned active set — and the error is never fatal to the batch: every
`ttyUSB` candidate of the batch is still classified, landing either in
the active set or in the terminated set. -/
theorem probe_error_amended (T : Nat) (outP outS : String → WorkerOutcome)
    (files : List String) (f : String)
    (hf : f ∈ files) (husb : starts_with f "ttyUSB" = true) :
    (outP f = WorkerOutcome.errored →
      f ∈ (get_active_PEM_device_files T outP files).1) ∧
    (outS f = WorkerOutcome.errored →
      f ∈ (get_active_serial_device_files T outS files).1) ∧
    (f ∈ (get_active_PEM_device_files T outP files).1 ∨
     f ∈ (get_active_PEM_device_files T outP files).2) ∧
    (f ∈ (get_active_serial_device_files T outS files).1 ∨
     f ∈ (get_active_serial_device_files T outS files).2) := by
  refine ⟨fun h => ?_, fun h => ?_, ?_, ?_⟩
  · simp [get_active_PEM_device_files, List.mem_filter, hf, husb, is_alive, h]
  · simp [get_active_serial_device_files, List.mem_filter, hf, husb,
      is_alive, h]
  · cases ha : is_alive (outP f)
    · left
      simp [get_active_PEM_device_files, List.mem_filter, hf, husb, ha]
    · right
      simp [get_active_PEM_device_files, List.mem_filter, hf, husb, ha]
  · cases ha : is_alive (outS f)
    · left
      simp [get_active_serial_device_files, List.mem_filter, hf, husb, ha]
    · right
      simp [get_active_serial_device_files, List.mem_filter, hf, husb, ha]

/-- Witness for `probe_error_amended`: a batch whose single worker
errors out. -/
theorem probe_error_amended_witness :
    "ttyUSB0" ∈ (get_active_PEM_device_files 30
      (fun _ => WorkerOutcome.errored) ["ttyUSB0"]).1 ∧
    "ttyUSB0" ∈ (get_active_serial_device_files 30
      (fun _ => WorkerOutcome.errored) ["ttyUSB0"]).1 ∧
    ("ttyUSB0" ∈ (get_active_serial_device_files 30
        (fun _ => WorkerOutcome.errored) ["ttyUSB0"]).1 ∨
     "ttyUSB0" ∈ (get_active_serial_device_files 30
        (fun _ => WorkerOutcome.errored) ["ttyUSB0"]).2) := by
  have h := probe_error_amended 30 (fun _ => WorkerOutcome.errored)
    (fun _ => WorkerOutcome.errored) ["ttyUSB0"] "ttyUSB0"
    (by decide) (by decide)
  exact ⟨h.1 rfl, h.2.1 rfl, h.2.2.2⟩

/-- `_get_device_configuration` never touches `self._devices`; the
caller appends its result. -/
theorem get_device_configuration_keeps_devices (cfg : TBConfig)
    (env : RoundEnv) (c : CutterConf) (st : RunState) :
    (get_device_configuration cfg env c st).2.devices = st.devices := rfl

/-- Every round appends exactly one device record, so a run over any
round list adds one record per round. -/
theorem run_rounds_devices_length (cfg : TBConfig)
    (rounds : List (CutterConf × RoundEnv)) (st : RunState) :
    (run_rounds cfg rounds st).devices.length
      = st.devices.length + rounds.length := by
  induction rounds generalizing st with
  | nil => simp [run_rounds]
  | cons r rest ih =>
    obtain ⟨c, env⟩ := r
    rw [run_rounds, ih]
    simp only [run_round, List.length_append,
      get_device_configuration_keeps_devices, List.length_cons,
      List.length_nil, List.length_singleton]
    omega

/-- C3 (Disappearance-count case analysis): for each port-pool kind,
with `disappeared = previousActive − currentActive`: a diff of exactly
one entry attributes that entry to the record (serial port + bauds,
resp. PEM port + interface tag) and erases it from the pool; an empty
diff leaves the record without those fields and the pool untouched,
with no warning (a valid outcome); a diff of more than one entry
leaves the record unattributed for that attribute and the pool
unchanged. -/
theorem disappearance_cases (device : DeviceRecord)
    (pool active : List String) :
    (∀ e, dead_ports pool active = [e] →
      set_device_serial_port device pool active =
        ({ device with
            serial_port := some ("/dev/" ++ e),
            serial_bauds := some 115200 }, pool.erase e, []) ∧
      set_device_pem_port device pool active =
        ({ device with
            pem_port := some ("/dev/" ++ e),
            pem_interface := some "serialconnection" }, pool.erase e, [])) ∧
    (dead_ports pool active = [] →
      set_device_serial_port device pool active = (device, pool, []) ∧
      set_device_pem_port device pool active = (device, pool, [])) ∧
    ((dead_ports pool active).length > 1 →
      (set_device_serial_port device pool active).1 = device ∧
      (set_device_serial_port device pool active).2.1 = pool ∧
      (set_device_pem_port device pool active).1 = device ∧
      (set_device_pem_port device pool active).2.1 = pool) := by
  refine ⟨fun e he => ?_, fun he => ?_, fun hl => ?_⟩
  · constructor <;> simp [set_device_serial_port, set_device_pem_port, he]
  · constructor <;> simp [set_device_serial_port, set_device_pem_port, he]
  · refine ⟨?_, ?_, ?_, ?_⟩ <;>
      simp [set_device_serial_port, set_device_pem_port, hl]

/-- Witness for `disappearance_cases`: a two-port pool in which only
`ttyUSB0` went silent. -/
theorem disappearance_cases_witness :
    (set_device_serial_port {} ["ttyUSB0", "ttyUSB1"] ["ttyUSB1"]).1.serial_port
      = some "/dev/ttyUSB0" ∧
    (set_device_serial_port {} ["ttyUSB0", "ttyUSB1"] ["ttyUSB1"]).2.1
      = ["ttyUSB1"] := by
  have h := (disappearance_cases {} ["ttyUSB0", "ttyUSB1"] ["ttyUSB1"]).1
    "ttyUSB0" (by decide)
  rw [h.1]
  exact ⟨by decide, by decide⟩

/-- C5 counterexample: when both ports of a pool disappear in the same
round, the ambiguity branch emits TWO warning-level events (the
"Too many usb devices disappeared" message and the device-dictionary
dump), not exactly one — for either pool kind. -/
theorem ambiguity_warning_counterexample :
    (set_device_serial_port {} ["ttyUSB0", "ttyUSB1"] []).2.2.length ≠ 1 ∧
    (set_device_pem_port {} ["ttyUSB0", "ttyUSB1"] []).2.2.length ≠ 1 := by
  decide

/-- C5 amended: in a round where more than one port disappears from a
pool, the record gets no port of that kind attributed and the pool is
unchanged, exactly TWO warning-level events are emitted for that
pool's ambiguity, and the run continues rather than aborting: a run
still appends exactly one record per remaining channel. -/
theorem ambiguity_warning_amended (device : DeviceRecord)
    (pool active : List String) (cfg : TBConfig)
    (rounds : List (CutterConf × RoundEnv)) (st : RunState)
    (h : (dead_ports pool active).length > 1) :
    (set_device_serial_port device pool active).1 = device ∧
    (set_device_serial_port device pool active).2.1 = pool ∧
    (set_device_serial_port device pool active).2.2.length = 2 ∧
    (set_device_pem_port device pool active).1 = device ∧
    (set_device_pem_port device pool active).2.1 = pool ∧
    (set_device_pem_port device pool active).2.2.length = 2 ∧
    (run_rounds cfg rounds st).devices.length
      = st.devices.length + rounds.length := by
  refine ⟨?_, ?_, ?_, ?_, ?_, ?_, run_rounds_devices_length cfg rounds st⟩ <;>
    simp [set_device_serial_port, set_device_pem_port, h]

/-- Witness for `ambiguity_warning_amended`: both pool members die. -/
theorem ambiguity_warning_amended_witness :
    (set_device_serial_port {} ["ttyUSB0", "ttyUSB1"] []).2.2.length = 2 ∧
    (set_device_pem_port {} ["ttyUSB0", "ttyUSB1"] []).2.2.length = 2 := by
  have h := ambiguity_warning_amended {} ["ttyUSB0", "ttyUSB1"] []
    ⟨[], "edison"⟩ [] ⟨[], [], [], [], [], []⟩ (by decide)
  exact ⟨h.2.2.1, h.2.2.2.2.2.1⟩

/-- C6 (First-match endpoint attribution): the remaining endpoint-pool
members are tested for reachability in pool order; the first one found
unreachable is attributed to the round's record and removed from the
pool (the result pool is `eraseP` of the first unreachable entry); at
most one endpoint is removed per round; and if every endpoint still
responds, nothing is removed and the record is returned unchanged (it
gets no network fields). -/
theorem endpoint_first_match (cfg : TBConfig) (uuid : String)
    (reachable : NetConfig → Bool) (device : DeviceRecord)
    (configs : List NetConfig) :
    ((set_device_network_and_type cfg uuid reachable device configs).2
      = configs.eraseP (fun c => !reachable c)) ∧
    configs.length ≤
      (set_device_network_and_type cfg uuid reachable device configs).2.length
        + 1 ∧
    (configs.find? (fun c => !reachable c) = none →
      set_device_network_and_type cfg uuid reachable device configs
        = (device, configs)) ∧
    (∀ c0, configs.find? (fun c => !reachable c) = some c0 →
      (set_device_network_and_type cfg uuid reachable device configs).1
        = attrib_net cfg uuid device c0) := by
  induction configs with
  | nil => simp [set_device_network_and_type]
  | cons c rest ih =>
    obtain ⟨ih1, ih2, ih3, ih4⟩ := ih
    by_cases h : reachable c = true
    · refine ⟨?_, ?_, ?_, ?_⟩
      · simp [set_device_network_and_type, h, List.eraseP_cons, ih1]
      · simp only [set_device_network_and_type, h, if_true, List.length_cons]
        omega
      · intro hf
        rw [List.find?_cons_of_neg rest (by simp [h])] at hf
        have := ih3 hf
        simp only [set_device_network_and_type, h, if_true]
        rw [this]
      · intro c0 hf
        rw [List.find?_cons_of_neg rest (by simp [h])] at hf
        have := ih4 c0 hf
        simp only [set_device_network_and_type, h, if_true]
        rw [← this]
    · have hb : (fun c => !reachable c) c = true := by
        simp [Bool.not_eq_true] at h ⊢; exact h
      refine ⟨?_, ?_, ?_, ?_⟩
      · simp [set_device_network_and_type, h, List.eraseP_cons, hb]
      · simp [set_device_network_and_type, h]
      · intro hf
        rw [List.find?_cons_of_pos rest hb] at hf
        exact absurd hf (by simp)
      · intro c0 hf
        rw [List.find?_cons_of_pos rest hb] at hf
        obtain rfl : c = c0 := by injection hf
        simp [set_device_network_and_type, h]

/-- Witness for `endpoint_first_match`: a PC endpoint that still
responds followed by an Edison endpoint that went dark. -/
theorem endpoint_first_match_witness :
    (set_device_network_and_type ⟨[], "EdModel"⟩ "uuid-1"
      (fun c => match c with | .PC _ _ => true | .edison _ _ _ => false)
      {} [.PC "aa:bb" "10.0.0.1", .edison "2-1.4" "192.168.2.1" "192.168.2"]).2
      = [.PC "aa:bb" "10.0.0.1"] ∧
    (set_device_network_and_type ⟨[], "EdModel"⟩ "uuid-1"
      (fun c => match c with | .PC _ _ => true | .edison _ _ _ => false)
      {} [.PC "aa:bb" "10.0.0.1", .edison "2-1.4" "192.168.2.1" "192.168.2"]).1
      = attrib_net ⟨[], "EdModel"⟩ "uuid-1" {}
          (.edison "2-1.4" "192.168.2.1" "192.168.2") := by
  have h := endpoint_first_match ⟨[], "EdModel"⟩ "uuid-1"
    (fun c => match c with | .PC _ _ => true | .edison _ _ _ => false)
    {} [.PC "aa:bb" "10.0.0.1", .edison "2-1.4" "192.168.2.1" "192.168.2"]
  refine ⟨h.1.trans (by decide), ?_⟩
  exact h.2.2.2 (.edison "2-1.4" "192.168.2.1" "192.168.2") (by decide)

/-- C7 (Timestamp filtering): a dmesg line is kept as evidence of an
Edison board attach only if it contains the marker AND its leading
integer-seconds timestamp strictly exceeds the window start; a line
whose timestamp is less than or equal to the window start is never
kept, even when it contains the attach-marker string. -/
theorem timestamp_filtering (dmesg_lines : List String) (timestamp : Int)
    (line : String)
    (_hmem : line ∈ dmesg_lines)
    (hts : dmesg_line_timestamp line ≤ timestamp) :
    line ∉ get_edison_lines dmesg_lines timestamp ∧
    (∀ l ∈ get_edison_lines dmesg_lines timestamp,
      str_contains l "Edison" = true ∧ dmesg_line_timestamp l > timestamp) := by
  constructor
  · intro hin
    simp only [get_edison_lines, List.mem_filter, Bool.and_eq_true,
      decide_eq_true_eq] at hin
    omega
  · intro l hl
    simp only [get_edison_lines, List.mem_filter, Bool.and_eq_true,
      decide_eq_true_eq] at hl
    exact hl.2

/-- Witness for `timestamp_filtering`: a line carrying the marker but
stamped at the window start is rejected. -/
theorem timestamp_filtering_witness :
    "[5.123] usb 2-1.4: Product: Edison" ∉
      get_edison_lines ["[5.123] usb 2-1.4: Product: Edison",
        "[7.001] usb 2-1.4: Product: Edison"] 5 ∧
    "[7.001] usb 2-1.4: Product: Edison" ∈
      get_edison_lines ["[5.123] usb 2-1.4: Product: Edison",
        "[7.001] usb 2-1.4: Product: Edison"] 5 := by
  have h := timestamp_filtering
    ["[5.123] usb 2-1.4: Product: Edison",
     "[7.001] usb 2-1.4: Product: Edison"] 5
    "[5.123] usb 2-1.4: Product: Edison" (by decide) (by decide)
  exact ⟨h.1, by decide⟩

/-- Dict lookup after dict assignment: the assigned key reads back the
new value, other keys are untouched. -/
theorem dict_lookup_dict_set (d : List (String × Nat)) (k k' : String)
    (v : Nat) :
    dict_lookup (dict_set d k v) k'
      = if k' = k then some v else dict_lookup d k' := by
  induction d with
  | nil =>
    by_cases hk : k' = k
    · subst hk; simp [dict_set, dict_lookup]
    · simp [dict_set, dict_lookup, hk, Ne.symm hk]
  | cons p rest ih =>
    by_cases hp : p.1 = k
    · by_cases hk : k' = k
      · subst hk; simp [dict_set, dict_lookup, hp]
      · simp [dict_set, dict_lookup, hp, hk, Ne.symm hk]
    · by_cases hpk : p.1 = k'
      · have hk : ¬ k' = k := fun h => hp (hpk.trans h)
        simp [dict_set, dict_lookup, hp, hpk, hk]
      · by_cases hk : k' = k
        · subst hk; simp [dict_set, dict_lookup, hp, hpk, ih]
        · simp [dict_set, dict_lookup, hp, hpk, hk, ih]

/-- Appending one record changes a model's count by one exactly when
the record carries that model. -/
theorem count_model_append_one (prev : List DeviceRecord)
    (d : DeviceRecord) (m : String) :
    count_model (prev ++ [d]) m
      = count_model prev m + (if d.model = some m then 1 else 0) := by
  by_cases hd : d.model = some m <;>
    simp [count_model, List.filter_append, hd]

/-- The source loop refines the spec-level assembler, given that the
counter dict holds, for each model, one more than the number of
already-processed records of that model (and no entry for unseen
models). -/
theorem create_configuration_loop_spec (devices : List DeviceRecord)
    (prev : List DeviceRecord) (ids : List (String × Nat))
    (hinv : ∀ m, dict_lookup ids m =
      if count_model prev m = 0 then none
      else some (count_model prev m + 1)) :
    create_configuration_loop ids devices = assemble_spec prev devices := by
  induction devices generalizing prev ids with
  | nil => rfl
  | cons d rest ih =>
    cases hd : d.model with
    | none =>
      simp only [create_configuration_loop, assemble_spec, hd]
      refine ih (prev ++ [d]) ids (fun m => ?_)
      rw [count_model_append_one, hd]
      simpa using hinv m
    | some m0 =>
      simp only [create_configuration_loop, assemble_spec, hd]
      by_cases h0 : count_model prev m0 = 0
      · have hl : dict_lookup ids m0 = none := by rw [hinv m0, if_pos h0]
        have h1 : dict_lookup (dict_set ids m0 1) m0 = some 1 := by
          rw [dict_lookup_dict_set]; simp
        simp only [hl, h1, Option.getD_some, h0, Nat.zero_add]
        congr 1
        refine ih (prev ++ [d]) _ (fun m => ?_)
        rw [count_model_append_one, hd]
        by_cases hm : m = m0
        · subst hm
          rw [dict_lookup_dict_set, if_pos rfl, h0]
          simp
        · rw [dict_lookup_dict_set, if_neg hm, dict_lookup_dict_set,
            if_neg hm, hinv m]
          have hne : ¬ ((some m0 : Option String) = some m) := by
            intro h; exact hm (Option.some.injEq m0 m ▸ h).symm
          simp [hne]
      · have hl : dict_lookup ids m0 = some (count_model prev m0 + 1) := by
          rw [hinv m0, if_neg h0]
        simp only [hl, Option.getD_some]
        congr 1
        refine ih (prev ++ [d]) _ (fun m => ?_)
        rw [count_model_append_one, hd]
        by_cases hm : m = m0
        · subst hm
          rw [dict_lookup_dict_set, if_pos rfl]
          simp [h0]
        · rw [dict_lookup_dict_set, if_neg hm, hinv m]
          have hne : ¬ ((some m0 : Option String) = some m) := by
            intro h; exact hm (Option.some.injEq m0 m ▸ h).symm
          simp [hne]

/-- The spec-level assembler keeps exactly the model-bearing records,
in input order. -/
theorem assemble_spec_devices (devices : List DeviceRecord)
    (prev : List DeviceRecord) :
    (assemble_spec prev devices).map ConfigSection.device
      = devices.filter (fun d => d.model.isSome) := by
  induction devices generalizing prev with
  | nil => rfl
  | cons d rest ih =>
    cases hd : d.model with
    | none => simp [assemble_spec, hd, ih, List.filter_cons]
    | some m0 => simp [assemble_spec, hd, ih, List.filter_cons]

/-- C8 (Configuration assembly): the assembled configuration equals the
spec-level assembler (drop records without a model, keep input order,
group by model with a 1-based per-model sequence number, section name =
uppercased model + "_" + number); hence it has exactly one section per
model-bearing record, in input order; and two records sharing model
"foo" yield sections FOO_1 and FOO_2 in input order. -/
theorem configuration_assembly (devices : List DeviceRecord) :
    create_configuration devices = assemble_spec [] devices ∧
    (create_configuration devices).map ConfigSection.device
      = devices.filter (fun d => d.model.isSome) ∧
    (create_configuration devices).length
      = (devices.filter (fun d => d.model.isSome)).length ∧
    (create_configuration
        [{ model := some "foo" }, { model := some "foo" }]).map
        ConfigSection.name
      = ["FOO_1", "FOO_2"] := by
  have href : create_configuration devices = assemble_spec [] devices :=
    create_configuration_loop_spec devices [] [] (fun m => by
      simp [dict_lookup, count_model])
  have hdev : (create_configuration devices).map ConfigSection.device
      = devices.filter (fun d => d.model.isSome) := by
    rw [href]; exact assemble_spec_devices devices []
  refine ⟨href, hdev, ?_, by decide⟩
  have hlen := congrArg List.length hdev
  simpa using hlen

/-- The record built by one round is the PEM step applied after the
serial step, the network step and the cutter step (definitional). -/
theorem get_device_configuration_fst (cfg : TBConfig) (env : RoundEnv)
    (c : CutterConf) (st : RunState) :
    (get_device_configuration cfg env c st).1
      = (set_device_pem_port
          (set_device_serial_port
            (set_device_network_and_type cfg env.uuid env.reachable
              (set_device_cutter_config {} c) st.network_configs).1
            st.serial_ports
            ((get_active_serial_device_files 30 env.serialOutcome
              st.serial_ports).1)).1
          st.pem_ports
          ((get_active_PEM_device_files 30 env.pemOutcome
            st.pem_ports).1)).1 := rfl

/-- The serial pool a round leaves behind (definitional). -/
theorem get_device_configuration_serial_ports (cfg : TBConfig)
    (env : RoundEnv) (c : CutterConf) (st : RunState) :
    (get_device_configuration cfg env c st).2.serial_ports
      = (set_device_serial_port
          (set_device_network_and_type cfg env.uuid env.reachable
            (set_device_cutter_config {} c) st.network_configs).1
          st.serial_ports
          ((get_active_serial_device_files 30 env.serialOutcome
            st.serial_ports).1)).2.1 := rfl

/-- The PEM pool a round leaves behind (definitional). -/
theorem get_device_configuration_pem_ports (cfg : TBConfig)
    (env : RoundEnv) (c : CutterConf) (st : RunState) :
    (get_device_configuration cfg env c st).2.pem_ports
      = (set_device_pem_port
          (set_device_serial_port
            (set_device_network_and_type cfg env.uuid env.reachable
              (set_device_cutter_config {} c) st.network_configs).1
            st.serial_ports
            ((get_active_serial_device_files 30 env.serialOutcome
              st.serial_ports).1)).1
          st.pem_ports
          ((get_active_PEM_device_files 30 env.pemOutcome
            st.pem_ports).1)).2.1 := rfl

/-- One round either leaves the serial attribution empty and the serial
pool unchanged, or attributes exactly one pool member and erases it. -/
theorem round_serial_cases (cfg : TBConfig) (env : RoundEnv)
    (c : CutterConf) (st : RunState) :
    ((get_device_configuration cfg env c st).1.serial_port = none ∧
     (get_device_configuration cfg env c st).2.serial_ports
       = st.serial_ports) ∨
    (∃ e, e ∈ st.serial_ports ∧
      (get_device_configuration cfg env c st).1.serial_port
        = some ("/dev/" ++ e) ∧
      (get_device_configuration cfg env c st).2.serial_ports
        = st.serial_ports.erase e) := by
  have hkeep := set_device_network_and_type_keeps_ports cfg env.uuid
    env.reachable (set_device_cutter_config {} c) st.network_configs
  rcases set_device_serial_port_cases
      (set_device_network_and_type cfg env.uuid env.reachable
        (set_device_cutter_config {} c) st.network_configs).1
      st.serial_ports
      ((get_active_serial_device_files 30 env.serialOutcome
        st.serial_ports).1)
    with ⟨e, hde, heq⟩ | ⟨h1, h2⟩
  · right
    refine ⟨e, dead_ports_subset (hde ▸ List.mem_singleton_self e), ?_, ?_⟩
    · rw [get_device_configuration_fst, heq,
        set_device_pem_port_keeps_serial]
    · rw [get_device_configuration_serial_ports, heq]
  · left
    constructor
    · rw [get_device_configuration_fst, set_device_pem_port_keeps_serial,
        h1, hkeep.1]
      rfl
    · rw [get_device_configuration_serial_ports, h2]

/-- One round either leaves the PEM attribution empty and the PEM pool
unchanged, or attributes exactly one pool member and erases it. -/
theorem round_pem_cases (cfg : TBConfig) (env : RoundEnv)
    (c : CutterConf) (st : RunState) :
    ((get_device_configuration cfg env c st).1.pem_port = none ∧
     (get_device_configuration cfg env c st).2.pem_ports
       = st.pem_ports) ∨
    (∃ e, e ∈ st.pem_ports ∧
      (get_device_configuration cfg env c st).1.pem_port
        = some ("/dev/" ++ e) ∧
      (get_device_configuration cfg env c st).2.pem_ports
        = st.pem_ports.erase e) := by
  have hkeep := set_device_network_and_type_keeps_ports cfg env.uuid
    env.reachable (set_device_cutter_config {} c) st.network_configs
  rcases set_device_pem_port_cases
      (set_device_serial_port
        (set_device_network_and_type cfg env.uuid env.reachable
          (set_device_cutter_config {} c) st.network_configs).1
        st.serial_ports
        ((get_active_serial_device_files 30 env.serialOutcome
          st.serial_ports).1)).1
      st.pem_ports
      ((get_active_PEM_device_files 30 env.pemOutcome st.pem_ports).1)
    with ⟨e, hde, heq⟩ | ⟨h1, h2⟩
  · right
    refine ⟨e, dead_ports_subset (hde ▸ List.mem_singleton_self e), ?_, ?_⟩
    · rw [get_device_configuration_fst, heq]
    · rw [get_device_configuration_pem_ports, heq]
  · left
    constructor
    · rw [get_device_configuration_fst, h1,
        set_device_serial_port_keeps_pem, hkeep.2]
      rfl
    · rw [get_device_configuration_pem_ports, h2]

/-- `run_round` takes its pools from `_get_device_configuration`. -/
theorem run_round_serial_ports (cfg : TBConfig) (env : RoundEnv)
    (c : CutterConf) (st : RunState) :
    (run_round cfg env c st).serial_ports
      = (get_device_configuration cfg env c st).2.serial_ports := rfl

/-- `run_round` takes its pools from `_get_device_configuration`. -/
theorem run_round_pem_ports (cfg : TBConfig) (env : RoundEnv)
    (c : CutterConf) (st : RunState) :
    (run_round cfg env c st).pem_ports
      = (get_device_configuration cfg env c st).2.pem_ports := rfl

/-- `run_round` appends the round's record to the device list. -/
theorem run_round_devices (cfg : TBConfig) (env : RoundEnv)
    (c : CutterConf) (st : RunState) :
    (run_round cfg env c st).devices
      = st.devices ++ [(get_device_configuration cfg env c st).1] := by
  simp [run_round, get_device_configuration_keeps_devices]

/-- One round issues exactly one cutter command: the disconnect. -/
theorem run_round_events (cfg : TBConfig) (env : RoundEnv)
    (c : CutterConf) (st : RunState) :
    (run_round cfg env c st).events
      = st.events ++ [CutterEvent.disconnect c] := rfl

/-- A round leaves the serial pool unchanged or erases one member. -/
theorem round_serial_pool (cfg : TBConfig) (env : RoundEnv)
    (c : CutterConf) (st : RunState) :
    (run_round cfg env c st).serial_ports = st.serial_ports ∨
    ∃ e, e ∈ st.serial_ports ∧
      (run_round cfg env c st).serial_ports = st.serial_ports.erase e := by
  rcases round_serial_cases cfg env c st with ⟨_, h⟩ | ⟨e, he, _, h⟩
  · left; rw [run_round_serial_ports]; exact h
  · right; exact ⟨e, he, by rw [run_round_serial_ports]; exact h⟩

/-- A round leaves the PEM pool unchanged or erases one member. -/
theorem round_pem_pool (cfg : TBConfig) (env : RoundEnv)
    (c : CutterConf) (st : RunState) :
    (run_round cfg env c st).pem_ports = st.pem_ports ∨
    ∃ e, e ∈ st.pem_ports ∧
      (run_round cfg env c st).pem_ports = st.pem_ports.erase e := by
  rcases round_pem_cases cfg env c st with ⟨_, h⟩ | ⟨e, he, _, h⟩
  · left; rw [run_round_pem_ports]; exact h
  · right; exact ⟨e, he, by rw [run_round_pem_ports]; exact h⟩

/-- A port absent from the serial pool never reappears in it. -/
theorem run_rounds_serial_not_mem (cfg : TBConfig)
    (rounds : List (CutterConf × RoundEnv)) (st : RunState) (p : String)
    (h : p ∉ st.serial_ports) :
    p ∉ (run_rounds cfg rounds st).serial_ports := by
  induction rounds generalizing st with
  | nil => exact h
  | cons r rest ih =>
    obtain ⟨c, env⟩ := r
    rw [run_rounds]
    refine ih _ ?_
    rcases round_serial_pool cfg env c st with he | ⟨e, _, he⟩
    · rw [he]; exact h
    · rw [he]
      exact fun hm => h ((List.erase_sublist e st.serial_ports).subset hm)

/-- A port absent from the PEM pool never reappears in it. -/
theorem run_rounds_pem_not_mem (cfg : TBConfig)
    (rounds : List (CutterConf × RoundEnv)) (st : RunState) (p : String)
    (h : p ∉ st.pem_ports) :
    p ∉ (run_rounds cfg rounds st).pem_ports := by
  induction rounds generalizing st with
  | nil => exact h
  | cons r rest ih =>
    obtain ⟨c, env⟩ := r
    rw [run_rounds]
    refine ih _ ?_
    rcases round_pem_pool cfg env c st with he | ⟨e, _, he⟩
    · rw [he]; exact h
    · rw [he]
      exact fun hm => h ((List.erase_sublist e st.pem_ports).subset hm)

/-- A run's cutter-event trace is the starting trace followed by one
disconnect per round, in round order. -/
theorem run_rounds_events (cfg : TBConfig)
    (rounds : List (CutterConf × RoundEnv)) (st : RunState) :
    (run_rounds cfg rounds st).events
      = st.events ++ rounds.map (fun r => CutterEvent.disconnect r.1) := by
  induction rounds generalizing st with
  | nil => simp [run_rounds]
  | cons r rest ih =>
    obtain ⟨c, env⟩ := r
    rw [run_rounds, ih, run_round_events]
    simp

/-- C9 (Cumulative power-down): the cutter-command trace of a discovery
run is the initial power cycle (all channels off, then all on) followed
by exactly one disconnect per channel, in input order; after the
initial full power-up no connect command is ever issued to any cutter;
and one elimination round runs per channel. -/
theorem cumulative_power_down (cfg : TBConfig) (device_files : List String)
    (basePem baseSerial : String → WorkerOutcome)
    (network_configs : List NetConfig)
    (rounds : List (CutterConf × RoundEnv)) :
    ((build_topology cfg device_files basePem baseSerial network_configs
        rounds).events
      = (rounds.map Prod.fst).map CutterEvent.disconnect
        ++ (rounds.map Prod.fst).map CutterEvent.connect
        ++ rounds.map (fun r => CutterEvent.disconnect r.1)) ∧
    (∀ e ∈ (build_topology cfg device_files basePem baseSerial
        network_configs rounds).events.drop (2 * rounds.length),
      ∀ c, e ≠ CutterEvent.connect c) ∧
    (build_topology cfg device_files basePem baseSerial network_configs
        rounds).devices.length = rounds.length := by
  have hev : (build_topology cfg device_files basePem baseSerial
      network_configs rounds).events
      = (rounds.map Prod.fst).map CutterEvent.disconnect
        ++ (rounds.map Prod.fst).map CutterEvent.connect
        ++ rounds.map (fun r => CutterEvent.disconnect r.1) := by
    rw [build_topology, run_rounds_events]
    show power_cycle_cutters (rounds.map Prod.fst) ++ _ = _
    rw [power_cycle_cutters]
  refine ⟨hev, ?_, ?_⟩
  · intro e he c
    rw [hev] at he
    have hlen : ((rounds.map Prod.fst).map CutterEvent.disconnect
        ++ (rounds.map Prod.fst).map CutterEvent.connect).length
        = 2 * rounds.length := by
      simp [two_mul]
    rw [← hlen, List.drop_left] at he
    obtain ⟨r, _, hr⟩ := List.mem_map.mp he
    rw [← hr]
    simp
  · rw [build_topology, run_rounds_devices_length]
    simp [initial_run_state]

/-- Witness for `cumulative_power_down`: a two-channel run. -/
theorem cumulative_power_down_witness :
    (build_topology ⟨[], "E"⟩ [] (fun _ => WorkerOutcome.running)
      (fun _ => WorkerOutcome.running) []
      [(⟨"clewarecutter", "123", some "0"⟩,
        ⟨fun _ => WorkerOutcome.running, fun _ => WorkerOutcome.running,
         fun _ => true, "u"⟩),
       (⟨"clewarecutter", "123", some "1"⟩,
        ⟨fun _ => WorkerOutcome.running, fun _ => WorkerOutcome.running,
         fun _ => true, "u"⟩)]).events
      = [CutterEvent.disconnect ⟨"clewarecutter", "123", some "0"⟩,
         CutterEvent.disconnect ⟨"clewarecutter", "123", some "1"⟩,
         CutterEvent.connect ⟨"clewarecutter", "123", some "0"⟩,
         CutterEvent.connect ⟨"clewarecutter", "123", some "1"⟩,
         CutterEvent.disconnect ⟨"clewarecutter", "123", some "0"⟩,
         CutterEvent.disconnect ⟨"clewarecutter", "123", some "1"⟩] ∧
    (build_topology ⟨[], "E"⟩ [] (fun _ => WorkerOutcome.running)
      (fun _ => WorkerOutcome.running) []
      [(⟨"clewarecutter", "123", some "0"⟩,
        ⟨fun _ => WorkerOutcome.running, fun _ => WorkerOutcome.running,
         fun _ => true, "u"⟩),
       (⟨"clewarecutter", "123", some "1"⟩,
        ⟨fun _ => WorkerOutcome.running, fun _ => WorkerOutcome.running,
         fun _ => true, "u"⟩)]).devices.length = 2 := by
  have h := cumulative_power_down ⟨[], "E"⟩ [] (fun _ => WorkerOutcome.running)
    (fun _ => WorkerOutcome.running) []
    [(⟨"clewarecutter", "123", some "0"⟩,
      ⟨fun _ => WorkerOutcome.running, fun _ => WorkerOutcome.running,
       fun _ => true, "u"⟩),
     (⟨"clewarecutter", "123", some "1"⟩,
      ⟨fun _ => WorkerOutcome.running, fun _ => WorkerOutcome.running,
       fun _ => true, "u"⟩)]
  exact ⟨h.1.trans (by decide), h.2.2.trans (by decide)⟩

/-- C2 (Pool monotonicity): for any elimination round from any state
with duplicate-free pools (as produced from the `/dev` listing), both
port pools only shrink: the pool after the round is a subset of the
pool before, its size does not grow, and it stays duplicate-free; and
a port attributed to the round's device record (serial or PEM) is not
present in the pool after the round nor in any later round's pool. -/
theorem pool_monotonicity (cfg : TBConfig) (env : RoundEnv) (c : CutterConf)
    (rest : List (CutterConf × RoundEnv)) (st : RunState) (p : String)
    (hs : st.serial_ports.Nodup) (hp : st.pem_ports.Nodup) :
    ((run_round cfg env c st).serial_ports ⊆ st.serial_ports ∧
     (run_round cfg env c st).serial_ports.length
       ≤ st.serial_ports.length ∧
     (run_round cfg env c st).pem_ports ⊆ st.pem_ports ∧
     (run_round cfg env c st).pem_ports.length ≤ st.pem_ports.length ∧
     (run_round cfg env c st).serial_ports.Nodup ∧
     (run_round cfg env c st).pem_ports.Nodup) ∧
    ((get_device_configuration cfg env c st).1.serial_port
        = some ("/dev/" ++ p) →
      ∀ k, p ∉ (run_rounds cfg (rest.take k)
        (run_round cfg env c st)).serial_ports) ∧
    ((get_device_configuration cfg env c st).1.pem_port
        = some ("/dev/" ++ p) →
      ∀ k, p ∉ (run_rounds cfg (rest.take k)
        (run_round cfg env c st)).pem_ports) := by
  refine ⟨⟨?_, ?_, ?_, ?_, ?_, ?_⟩, ?_, ?_⟩
  · rcases round_serial_pool cfg env c st with he | ⟨e, _, he⟩ <;> rw [he]
    · exact fun _ h => h
    · exact (List.erase_sublist e st.serial_ports).subset
  · rcases round_serial_pool cfg env c st with he | ⟨e, _, he⟩
    · rw [he]
    · rw [he]; exact (List.erase_sublist e st.serial_ports).length_le
  · rcases round_pem_pool cfg env c st with he | ⟨e, _, he⟩ <;> rw [he]
    · exact fun _ h => h
    · exact (List.erase_sublist e st.pem_ports).subset
  · rcases round_pem_pool cfg env c st with he | ⟨e, _, he⟩
    · rw [he]
    · rw [he]; exact (List.erase_sublist e st.pem_ports).length_le
  · rcases round_serial_pool cfg env c st with he | ⟨e, _, he⟩ <;> rw [he]
    · exact hs
    · exact List.Nodup.sublist (List.erase_sublist e st.serial_ports) hs
  · rcases round_pem_pool cfg env c st with he | ⟨e, _, he⟩ <;> rw [he]
    · exact hp
    · exact List.Nodup.sublist (List.erase_sublist e st.pem_ports) hp
  · intro hattr k
    rcases round_serial_cases cfg env c st with ⟨h1, _⟩ | ⟨e, _, h1, h2⟩
    · rw [hattr] at h1; exact absurd h1 (by simp)
    · have hep : e = p := dev_prefix_inj (Option.some.inj (h1.symm.trans hattr))
      subst hep
      refine run_rounds_serial_not_mem cfg (rest.take k) _ e ?_
      rw [run_round_serial_ports, h2]
      exact fun hm => ((List.Nodup.mem_erase_iff hs).mp hm).1 rfl
  · intro hattr k
    rcases round_pem_cases cfg env c st with ⟨h1, _⟩ | ⟨e, _, h1, h2⟩
    · rw [hattr] at h1; exact absurd h1 (by simp)
    · have hep : e = p := dev_prefix_inj (Option.some.inj (h1.symm.trans hattr))
      subst hep
      refine run_rounds_pem_not_mem cfg (rest.take k) _ e ?_
      rw [run_round_pem_ports, h2]
      exact fun hm => ((List.Nodup.mem_erase_iff hp).mp hm).1 rfl

/-- Witness for `pool_monotonicity`: a round in which serial port
`ttyUSB0` stops answering and is attributed; it is gone from the pool
afterwards. -/
theorem pool_monotonicity_witness :
    "ttyUSB0" ∉ (run_rounds ⟨[], "E"⟩
      (([] : List (CutterConf × RoundEnv)).take 0)
      (run_round ⟨[], "E"⟩
        ⟨fun _ => WorkerOutcome.finished,
         fun u => if u = "ttyUSB1" then WorkerOutcome.finished
                  else WorkerOutcome.running,
         fun _ => true, "u"⟩
        ⟨"clewarecutter", "123", some "0"⟩
        ⟨["ttyUSB9"], ["ttyUSB0", "ttyUSB1"], [], [], [], []⟩)).serial_ports := by
  have h := pool_monotonicity ⟨[], "E"⟩
    ⟨fun _ => WorkerOutcome.finished,
     fun u => if u = "ttyUSB1" then WorkerOutcome.finished
              else WorkerOutcome.running,
     fun _ => true, "u"⟩
    ⟨"clewarecutter", "123", some "0"⟩ []
    ⟨["ttyUSB9"], ["ttyUSB0", "ttyUSB1"], [], [], [], []⟩ "ttyUSB0"
    (by decide) (by decide)
  exact h.2.1 (by decide) 0

/-- The baseline PEM pool (definitional). -/
theorem initial_run_state_pem (device_files : List String)
    (basePem baseSerial : String → WorkerOutcome)
    (network_configs : List NetConfig) (cutters : List CutterConf) :
    (initial_run_state device_files basePem baseSerial network_configs
      cutters).pem_ports
      = (get_active_PEM_device_files 80 basePem device_files).1 := rfl

/-- The baseline serial pool (definitional): the serial probe over
`list(set(device_files).difference(pem_ports))`. -/
theorem initial_run_state_serial (device_files : List String)
    (basePem baseSerial : String → WorkerOutcome)
    (network_configs : List NetConfig) (cutters : List CutterConf) :
    (initial_run_state device_files basePem baseSerial network_configs
      cutters).serial_ports
      = (get_active_serial_device_files 20 baseSerial
          (device_files.dedup.filter (fun d =>
            !decide (d ∈ (get_active_PEM_device_files 80 basePem
              device_files).1)))).1 := rfl

/-- No device record exists before the first round (definitional). -/
theorem initial_run_state_devices (device_files : List String)
    (basePem baseSerial : String → WorkerOutcome)
    (network_configs : List NetConfig) (cutters : List CutterConf) :
    (initial_run_state device_files basePem baseSerial network_configs
      cutters).devices = [] := rfl

/-- The snapshotted serial pool is disjoint from the snapshotted PEM
pool: serial candidates are the device files minus the PEM ports. -/
theorem initial_pools_disjoint (device_files : List String)
    (basePem baseSerial : String → WorkerOutcome)
    (network_configs : List NetConfig) (cutters : List CutterConf) :
    ∀ x ∈ (initial_run_state device_files basePem baseSerial
        network_configs cutters).serial_ports,
      x ∉ (initial_run_state device_files basePem baseSerial
        network_configs cutters).pem_ports := by
  intro x hx
  rw [initial_run_state_serial] at hx
  rw [initial_run_state_pem]
  simp only [get_active_serial_device_files, List.mem_filter] at hx
  have hx2 := hx.1.1
  simp only [List.mem_filter, Bool.not_eq_true', decide_eq_false_iff_not]
    at hx2
  exact hx2.2

/-- Along any run, pool members stay inside the starting pools and
every attributed serial/PEM port is `"/dev/" ++ e` for a member `e` of
the corresponding starting pool. -/
theorem run_rounds_attribs (cfg : TBConfig)
    (rounds : List (CutterConf × RoundEnv)) (st : RunState)
    (S P : List String)
    (hs : ∀ x ∈ st.serial_ports, x ∈ S)
    (hp : ∀ x ∈ st.pem_ports, x ∈ P)
    (hd : ∀ d ∈ st.devices,
      (∀ f, d.serial_port = some f → ∃ e, e ∈ S ∧ f = "/dev/" ++ e) ∧
      (∀ f, d.pem_port = some f → ∃ e, e ∈ P ∧ f = "/dev/" ++ e)) :
    (∀ x ∈ (run_rounds cfg rounds st).serial_ports, x ∈ S) ∧
    (∀ x ∈ (run_rounds cfg rounds st).pem_ports, x ∈ P) ∧
    (∀ d ∈ (run_rounds cfg rounds st).devices,
      (∀ f, d.serial_port = some f → ∃ e, e ∈ S ∧ f = "/dev/" ++ e) ∧
      (∀ f, d.pem_port = some f → ∃ e, e ∈ P ∧ f = "/dev/" ++ e)) := by
  induction rounds generalizing st with
  | nil => exact ⟨hs, hp, hd⟩
  | cons r rest ih =>
    obtain ⟨c, env⟩ := r
    rw [run_rounds]
    refine ih _ ?_ ?_ ?_
    · intro x hx
      rcases round_serial_pool cfg env c st with he | ⟨e, _, he⟩
      · rw [he] at hx; exact hs x hx
      · rw [he] at hx
        exact hs x ((List.erase_sublist e st.serial_ports).subset hx)
    · intro x hx
      rcases round_pem_pool cfg env c st with he | ⟨e, _, he⟩
      · rw [he] at hx; exact hp x hx
      · rw [he] at hx
        exact hp x ((List.erase_sublist e st.pem_ports).subset hx)
    · intro d hdm
      rw [run_round_devices] at hdm
      rcases List.mem_append.mp hdm with hold | hnew
      · exact hd d hold
      · have hdd : d = (get_device_configuration cfg env c st).1 :=
          List.mem_singleton.mp hnew
        subst hdd
        constructor
        · intro f hf
          rcases round_serial_cases cfg env c st with ⟨h1, _⟩ | ⟨e, hem, h1, _⟩
          · rw [h1] at hf; exact absurd hf (by simp)
          · rw [h1] at hf
            exact ⟨e, hs e hem, (Option.some.inj hf).symm⟩
        · intro f hf
          rcases round_pem_cases cfg env c st with ⟨h1, _⟩ | ⟨e, hem, h1, _⟩
          · rw [h1] at hf; exact absurd hf (by simp)
          · rw [h1] at hf
            exact ⟨e, hp e hem, (Option.some.inj hf).symm⟩

/-- C10 (PEM/serial pool disjointness): the snapshotted serial pool is
the device files minus the detected PEM ports, so the two pools are
disjoint at the baseline; they stay disjoint after every round of the
run (each round only removes elements); and no device file is ever
attributed both as a PEM port (of any record) and as a serial port (of
any record). -/
theorem pem_serial_disjointness (cfg : TBConfig)
    (device_files : List String)
    (basePem baseSerial : String → WorkerOutcome)
    (network_configs : List NetConfig)
    (rounds : List (CutterConf × RoundEnv)) :
    (∀ x ∈ (initial_run_state device_files basePem baseSerial
        network_configs (rounds.map Prod.fst)).serial_ports,
      x ∉ (initial_run_state device_files basePem baseSerial
        network_configs (rounds.map Prod.fst)).pem_ports) ∧
    (∀ k, ∀ x ∈ (run_rounds cfg (rounds.take k)
        (initial_run_state device_files basePem baseSerial network_configs
          (rounds.map Prod.fst))).serial_ports,
      x ∉ (run_rounds cfg (rounds.take k)
        (initial_run_state device_files basePem baseSerial network_configs
          (rounds.map Prod.fst))).pem_ports) ∧
    (∀ d ∈ (build_topology cfg device_files basePem baseSerial
        network_configs rounds).devices,
     ∀ d' ∈ (build_topology cfg device_files basePem baseSerial
        network_configs rounds).devices,
     ∀ f, d.serial_port = some f → d'.pem_port ≠ some f) := by
  have hdisj := initial_pools_disjoint device_files basePem baseSerial
    network_configs (rounds.map Prod.fst)
  have hvac : ∀ d ∈ (initial_run_state device_files basePem baseSerial
      network_configs (rounds.map Prod.fst)).devices,
      (∀ f, d.serial_port = some f →
        ∃ e, e ∈ (initial_run_state device_files basePem baseSerial
          network_configs (rounds.map Prod.fst)).serial_ports ∧
          f = "/dev/" ++ e) ∧
      (∀ f, d.pem_port = some f →
        ∃ e, e ∈ (initial_run_state device_files basePem baseSerial
          network_configs (rounds.map Prod.fst)).pem_ports ∧
          f = "/dev/" ++ e) := by
    intro d hd
    rw [initial_run_state_devices] at hd
    exact absurd hd (List.not_mem_nil d)
  refine ⟨hdisj, ?_, ?_⟩
  · intro k x hx hmem
    have h := run_rounds_attribs cfg (rounds.take k)
      (initial_run_state device_files basePem baseSerial network_configs
        (rounds.map Prod.fst))
      (initial_run_state device_files basePem baseSerial network_configs
        (rounds.map Prod.fst)).serial_ports
      (initial_run_state device_files basePem baseSerial network_configs
        (rounds.map Prod.fst)).pem_ports
      (fun _ h => h) (fun _ h => h) hvac
    exact hdisj x (h.1 x hx) (h.2.1 x hmem)
  · intro d hd d' hd' f hf hpf
    rw [build_topology] at hd hd'
    have h := run_rounds_attribs cfg rounds
      (initial_run_state device_files basePem baseSerial network_configs
        (rounds.map Prod.fst))
      (initial_run_state device_files basePem baseSerial network_configs
        (rounds.map Prod.fst)).serial_ports
      (initial_run_state device_files basePem baseSerial network_configs
        (rounds.map Prod.fst)).pem_ports
      (fun _ h => h) (fun _ h => h) hvac
    obtain ⟨e, heS, hfe⟩ := (h.2.2 d hd).1 f hf
    obtain ⟨e2, heP, hfe2⟩ := (h.2.2 d' hd').2 f hpf
    have hee : e = e2 := dev_prefix_inj (hfe ▸ hfe2 ▸ rfl)
    exact hdisj e heS (hee ▸ heP)

/-- Witness for `pem_serial_disjointness`: `ttyUSB0` hosts the PEM, so
the serial baseline only holds `ttyUSB1`, which is not a PEM port. -/
theorem pem_serial_disjointness_witness :
    "ttyUSB1" ∉ (initial_run_state ["ttyUSB0", "ttyUSB1"]
      (fun u => if u = "ttyUSB0" then WorkerOutcome.finished
                else WorkerOutcome.running)
      (fun _ => WorkerOutcome.finished) []
      (([] : List (CutterConf × RoundEnv)).map Prod.fst)).pem_ports := by
  have h := pem_serial_disjointness ⟨[], "E"⟩ ["ttyUSB0", "ttyUSB1"]
    (fun u => if u = "ttyUSB0" then WorkerOutcome.finished
              else WorkerOutcome.running)
    (fun _ => WorkerOutcome.finished) [] []
  exact h.1 "ttyUSB1" (by decide)
